import Mathlib

/-!
Verification of the GAX wrapper for the Logging API
(`gcloud/logging/_gax.py`): a shallow embedding of the
mapping <-> protobuf-message converters, the sink CRUD gateway with its
error-code translation, the batched `write_entries` call and the paging
options builder, together with theorems settling the specified contract.

RPC calls are embedded by passing the outcome of the underlying
generated-client call (`Except RpcError α`) as an explicit argument and by
returning the call records a method issues, so that the translation layer
itself stays a pure function.
-/

set_option autoImplicit false

namespace GaxLogging

/-- gRPC status codes (`grpc.beta.interfaces.StatusCode`), the values
`exc_to_code` can report for a transport error's cause. -/
inductive StatusCode where
  | OK
  | CANCELLED
  | UNKNOWN
  | INVALID_ARGUMENT
  | DEADLINE_EXCEEDED
  | NOT_FOUND
  | ALREADY_EXISTS
  | PERMISSION_DENIED
  | FAILED_PRECONDITION
  | ABORTED
  | INTERNAL
  | UNAVAILABLE
  deriving DecidableEq

/-- A `google.gax.errors.GaxError` as far as this layer inspects it:
`cause_code` is the value of `exc_to_code(exc.cause)` (`none` when the cause
carries no translatable status code), `msg` stands for the rest of the
error's payload, so that "re-raised unmodified" is equality of values. -/
structure GaxError where
  cause_code : Option StatusCode
  msg : String
  deriving DecidableEq

/-- What the underlying generated client can raise: a `GaxError`, or any
other exception type (not caught by the `except GaxError` clauses). -/
inductive RpcError where
  | gax (g : GaxError)
  | other (e : String)
  deriving DecidableEq

/-- Errors surfaced by the gateway methods: the two domain errors raised by
this layer (`gcloud.exceptions.Conflict` / `NotFound`, each carrying the
resource path), or a propagated transport error. -/
inductive LoggingError where
  | conflict (path : String)
  | notFound (path : String)
  | gax (g : GaxError)
  | other (e : String)
  deriving DecidableEq

/-- Embeds an uncaught transport error unchanged into the gateway's error
type (the re-raise in the `except` clauses). -/
def RpcError.reraise : RpcError → LoggingError
  | .gax g => .gax g
  | .other e => .other e

/-- The path string `'projects/%s/sinks/%s' % (project, sink_name)`. -/
def sink_path (project sink_name : String) : String :=
  "projects/" ++ project ++ "/sinks/" ++ sink_name

/-- The parent string `'projects/%s' % (project,)` for `create_sink`. -/
def project_parent (project : String) : String :=
  "projects/" ++ project

/-- The `google.logging.v2.logging_config_pb2.LogSink` message: three
scalar string fields, no sub-messages. -/
structure LogSink where
  name : String
  filter : String
  destination : String
  deriving DecidableEq

/-- Embedding of `_log_sink_pb_to_mapping`: copies exactly the three scalar fields into
a mapping, unconditionally. -/
def _log_sink_pb_to_mapping (sink_pb : LogSink) : List (String × String) :=
  [("name", sink_pb.name),
   ("destination", sink_pb.destination),
   ("filter", sink_pb.filter)]

/-- Embedding of `_SinksAPI.sink_create`: builds the parent and path, constructs the
sink message and calls `create_sink`; a `GaxError` whose cause code is
`FAILED_PRECONDITION` becomes `Conflict(path)`, every other error is
re-raised.  `rpc` is the outcome of
`self._gax_api.create_sink(parent, sink_pb, options)`; the returned record
also carries the arguments that call received. -/
def sink_create (project sink_name filter_ destination : String)
    (rpc : String → LogSink → Except RpcError Unit) :
    Except LoggingError Unit :=
  let parent := project_parent project
  let path := sink_path project sink_name
  let sink_pb : LogSink := ⟨path, filter_, destination⟩
  match rpc parent sink_pb with
  | .ok _ => .ok ()
  | .error (.gax exc) =>
      if exc.cause_code = some StatusCode.FAILED_PRECONDITION then
        .error (.conflict path)
      else
        .error (RpcError.reraise (.gax exc))
  | .error e => .error (RpcError.reraise e)

/-- Embedding of `_SinksAPI.sink_get`: builds the path and calls `get_sink`; a
`GaxError` whose cause code is `NOT_FOUND` becomes `NotFound(path)`, every
other error is re-raised; on success the returned sink message is converted
to mapping form. -/
def sink_get (project sink_name : String)
    (rpc : String → Except RpcError LogSink) :
    Except LoggingError (List (String × String)) :=
  let path := sink_path project sink_name
  match rpc path with
  | .ok sink_pb => .ok (_log_sink_pb_to_mapping sink_pb)
  | .error (.gax exc) =>
      if exc.cause_code = some StatusCode.NOT_FOUND then
        .error (.notFound path)
      else
        .error (RpcError.reraise (.gax exc))
  | .error e => .error (RpcError.reraise e)

/-- Embedding of `_SinksAPI.sink_update`: builds the path, rebuilds the sink message
from the three supplied fields and calls `update_sink`; `NOT_FOUND` becomes
`NotFound(path)`, every other error is re-raised; on success the mapping
returned is reconstructed from the request message `sink_pb`, ignoring the
server's response. -/
def sink_update (project sink_name filter_ destination : String)
    (rpc : String → LogSink → Except RpcError LogSink) :
    Except LoggingError (List (String × String)) :=
  let path := sink_path project sink_name
  let sink_pb : LogSink := ⟨path, filter_, destination⟩
  match rpc path sink_pb with
  | .ok _ => .ok (_log_sink_pb_to_mapping sink_pb)
  | .error (.gax exc) =>
      if exc.cause_code = some StatusCode.NOT_FOUND then
        .error (.notFound path)
      else
        .error (RpcError.reraise (.gax exc))
  | .error e => .error (RpcError.reraise e)

/-- Embedding of `_SinksAPI.sink_delete`: builds the path and calls `delete_sink`;
`NOT_FOUND` becomes `NotFound(path)`, every other error is re-raised. -/
def sink_delete (project sink_name : String)
    (rpc : String → Except RpcError Unit) :
    Except LoggingError Unit :=
  let path := sink_path project sink_name
  match rpc path with
  | .ok _ => .ok ()
  | .error (.gax exc) =>
      if exc.cause_code = some StatusCode.NOT_FOUND then
        .error (.notFound path)
      else
        .error (RpcError.reraise (.gax exc))
  | .error e => .error (RpcError.reraise e)

/-- The value bound to `page_token` in the options handed to a list call:
either the token string, or the client library's first-page sentinel.
Modelled from the spec: `google.gax.INITIAL_PAGE` is not under `src/`; the
spec describes it as a sentinel distinct from every token string (in
particular from the empty string), hence a separate constructor. -/
inductive PageToken where
  | INITIAL_PAGE
  | token (s : String)
  deriving DecidableEq

/-- The options value this layer builds, `CallOptions` with a
`page_token` entry. -/
structure CallOptions where
  page_token : PageToken
  deriving DecidableEq

/-- Embedding of `_build_paging_options`: `None` becomes the `INITIAL_PAGE` sentinel,
any token string is carried verbatim. -/
def _build_paging_options (page_token : Option String) : CallOptions :=
  match page_token with
  | none => { page_token := PageToken.INITIAL_PAGE }
  | some s => { page_token := PageToken.token s }

/-- The wire timestamp (`google.protobuf.Timestamp`). -/
structure Timestamp where
  seconds : Int := 0
  nanos : Int := 0
  deriving DecidableEq

/-- A native date/time value, as epoch seconds plus microseconds.
Modelled from the spec: `gcloud._helpers._datetime_to_pb_timestamp` is not
under `src/`; the spec only says the native value is converted into the
wire timestamp representation. -/
structure DateTime where
  epoch_seconds : Int := 0
  microsecond : Int := 0
  deriving DecidableEq

/-- Modelled from the spec: conversion of a native date/time value into
the wire timestamp representation (`gcloud._helpers`, not under `src/`). -/
def _datetime_to_pb_timestamp (value : DateTime) : Timestamp :=
  { seconds := value.epoch_seconds, nanos := value.microsecond * 1000 }

/-- The `google.api.MonitoredResource` message: a type name plus
resource labels. -/
structure MonitoredResource where
  type_ : String := ""
  labels : List (String × String) := []
  deriving DecidableEq

/-- The `google.protobuf.Any` message, the type of
`LogEntry.proto_payload`. -/
structure ProtoPayload where
  type_url : String := ""
  value : List (String × String) := []
  deriving DecidableEq

/-- The `http_request` sub-message of `LogEntry`. -/
structure HttpRequest where
  request_method : String := ""
  request_url : String := ""
  status : Nat := 0
  referer : String := ""
  user_agent : String := ""
  cache_hit : Bool := false
  request_size : Int := 0
  response_size : Int := 0
  remote_ip : String := ""
  deriving DecidableEq

/-- The `operation` sub-message of `LogEntry` (`LogEntryOperation`). -/
structure LogEntryOperation where
  producer : String := ""
  id : String := ""
  first : Bool := false
  last : Bool := false
  deriving DecidableEq

/-- The `google.logging.v2.log_entry_pb2.LogEntry` message, with every
field at its proto3 zero/default value when not set.  `severity` is the
numeric enum value; `json_payload` is the `Struct` field as a key/value
map. -/
structure LogEntry where
  log_name : String := ""
  resource : MonitoredResource := {}
  severity : Nat := 0
  insert_id : String := ""
  timestamp : Timestamp := {}
  labels : List (String × String) := []
  text_payload : String := ""
  json_payload : List (String × String) := []
  proto_payload : ProtoPayload := {}
  http_request : HttpRequest := {}
  operation : LogEntryOperation := {}
  deriving DecidableEq

instance : Inhabited LogEntry := ⟨{}⟩

/-- Scalar values inside the `http_request` / `operation` sub-mappings. -/
inductive SubVal where
  | str (s : String)
  | num (n : Nat)
  | int (i : Int)
  | bool (b : Bool)
  deriving DecidableEq

/-- Values of the entry mapping produced by `_log_entry_pb_to_mapping`:
the scalar fields, the embedded message objects copied wholesale, and the
two conditional sub-mappings. -/
inductive EValue where
  | str (s : String)
  | num (n : Nat)
  | res (r : MonitoredResource)
  | ts (t : Timestamp)
  | strMap (m : List (String × String))
  | proto (p : ProtoPayload)
  | sub (m : List (String × SubVal))
  deriving DecidableEq

/-- First value bound to a key in an association-list mapping. -/
def mlookup {α : Type} (k : String) : List (String × α) → Option α
  | [] => none
  | (k1, v) :: rest => if k1 = k then some v else mlookup k rest

/-- Whether a mapping contains a key. -/
def hasKey {α : Type} (k : String) (m : List (String × α)) : Bool :=
  (mlookup k m).isSome

/-- The sub-mapping built for `mapping['http_request']` in
`_log_entry_pb_to_mapping`. -/
def _http_request_pb_to_mapping (request : HttpRequest) :
    List (String × SubVal) :=
  [("request_method", .str request.request_method),
   ("request_url", .str request.request_url),
   ("status", .num request.status),
   ("referer", .str request.referer),
   ("user_agent", .str request.user_agent),
   ("cache_hit", .bool request.cache_hit),
   ("request_size", .int request.request_size),
   ("response_size", .int request.response_size),
   ("remote_ip", .str request.remote_ip)]

/-- The sub-mapping built for `mapping['operation']` in
`_log_entry_pb_to_mapping`. -/
def _log_operation_pb_to_mapping (operation : LogEntryOperation) :
    List (String × SubVal) :=
  [("producer", .str operation.producer),
   ("id", .str operation.id),
   ("first", .bool operation.first),
   ("last", .bool operation.last)]

/-- Embedding of `_log_entry_pb_to_mapping`: the nine scalar keys unconditionally, then
`http_request` and `operation` only when the sub-message is truthy.
Modelled from the spec for the truthiness test: python-protobuf message
truthiness is not under `src/`; the spec reads it as "non-empty/truthy",
i.e. the sub-message differs from its default. -/
def _log_entry_pb_to_mapping (entry_pb : LogEntry) :
    List (String × EValue) :=
  let mapping : List (String × EValue) :=
    [("log_name", .str entry_pb.log_name),
     ("resource", .res entry_pb.resource),
     ("severity", .num entry_pb.severity),
     ("insert_id", .str entry_pb.insert_id),
     ("timestamp", .ts entry_pb.timestamp),
     ("labels", .strMap entry_pb.labels),
     ("text_payload", .str entry_pb.text_payload),
     ("json_payload", .strMap entry_pb.json_payload),
     ("proto_payload", .proto entry_pb.proto_payload)]
  let mapping :=
    if entry_pb.http_request ≠ {} then
      mapping ++
        [("http_request", .sub (_http_request_pb_to_mapping entry_pb.http_request))]
    else mapping
  let mapping :=
    if entry_pb.operation ≠ {} then
      mapping ++
        [("operation", .sub (_log_operation_pb_to_mapping entry_pb.operation))]
    else mapping
  mapping

/-- Modelled from the spec: the severity enumeration's name-to-value
lookup, `LogSeverity.Value` of `google.logging.type.log_severity_pb2`
(not under `src/`); fails (`none`, a raised `ValueError` in python) on a
string that is not a recognized severity name. -/
def LogSeverity.Value : String → Option Nat
  | "DEFAULT" => some 0
  | "DEBUG" => some 100
  | "INFO" => some 200
  | "NOTICE" => some 300
  | "WARNING" => some 400
  | "ERROR" => some 500
  | "CRITICAL" => some 600
  | "ALERT" => some 700
  | "EMERGENCY" => some 800
  | _ => none

/-- A `severity` value in an entry mapping: either a symbolic string name
or a pre-resolved enumerated numeric value. -/
inductive SeverityIn where
  | str (s : String)
  | val (n : Nat)
  deriving DecidableEq

/-- The `resource` sub-mapping of an entry mapping, as far as the
conversion reads it: `mapping['resource']['type']` (a missing `'type'` key
is a raised `KeyError`). -/
structure ResourceMapping where
  type_ : Option String := none
  deriving DecidableEq

/-- The `http_request` sub-mapping: the nine allow-listed optional keys
(a key is present iff the field is `some`). -/
structure HttpRequestMapping where
  request_method : Option String := none
  request_url : Option String := none
  status : Option Nat := none
  referer : Option String := none
  user_agent : Option String := none
  cache_hit : Option Bool := none
  request_size : Option Int := none
  response_size : Option Int := none
  remote_ip : Option String := none
  deriving DecidableEq

/-- The `operation` sub-mapping: `producer` and `id` are read
unconditionally (absence is a raised `KeyError`), `first`/`last` only when
present. -/
structure OperationMapping where
  producer : Option String := none
  id : Option String := none
  first : Option Bool := none
  last : Option Bool := none
  deriving DecidableEq

/-- An entry mapping as `_log_entry_mapping_to_pb` reads it: each field is
`some` exactly when the corresponding key is present in the mapping. -/
structure EntryMapping where
  log_name : Option String := none
  insert_id : Option String := none
  text_payload : Option String := none
  resource : Option ResourceMapping := none
  severity : Option SeverityIn := none
  timestamp : Option DateTime := none
  labels : Option (List (String × String)) := none
  json_payload : Option (List (String × String)) := none
  proto_payload : Option (List (String × String)) := none
  http_request : Option HttpRequestMapping := none
  operation : Option OperationMapping := none
  deriving DecidableEq

/-- The assignment `entry_pb.labels[key] = value` on a protobuf map field: replace the
entry when the key exists, append otherwise. -/
def mapSet (m : List (String × String)) (k v : String) :
    List (String × String) :=
  if hasKey k m then
    m.map (fun p => if p.1 = k then (k, v) else p)
  else
    m ++ [(k, v)]

/-- The key-by-key copy loop `for key, value in items: pb_map[key] = value`. -/
def mapCopy (src dst : List (String × String)) : List (String × String) :=
  src.foldl (fun acc p => mapSet acc p.1 p.2) dst

/-- Modelled from the spec: `google.protobuf.json_format.Parse` of
`json.dumps(mapping['proto_payload'])` into the `Any` field (not under
`src/`); the spec says the content must match the schema of the target
embedded message or the parse fails, which for an `Any` requires its type
tag. -/
def Parse (js : List (String × String)) : Option ProtoPayload :=
  match mlookup "@type" js with
  | some t => some { type_url := t, value := js.filter (fun p => p.1 ≠ "@type") }
  | none => none

/-- Embedding of `_http_request_mapping_to_pb`: sets each of the nine allow-listed
fields on the sub-message exactly when its key is present. -/
def _http_request_mapping_to_pb (info : HttpRequestMapping)
    (request : HttpRequest) : HttpRequest :=
  let request := match info.request_method with
    | some v => { request with request_method := v } | none => request
  let request := match info.request_url with
    | some v => { request with request_url := v } | none => request
  let request := match info.status with
    | some v => { request with status := v } | none => request
  let request := match info.referer with
    | some v => { request with referer := v } | none => request
  let request := match info.user_agent with
    | some v => { request with user_agent := v } | none => request
  let request := match info.cache_hit with
    | some v => { request with cache_hit := v } | none => request
  let request := match info.request_size with
    | some v => { request with request_size := v } | none => request
  let request := match info.response_size with
    | some v => { request with response_size := v } | none => request
  match info.remote_ip with
    | some v => { request with remote_ip := v } | none => request

/-- Embedding of `_log_operation_mapping_to_pb`: reads `producer` and `id`
unconditionally (failing when either is absent), `first`/`last` only when
present. -/
def _log_operation_mapping_to_pb (info : OperationMapping)
    (operation : LogEntryOperation) : Option LogEntryOperation := do
  let producer ← info.producer
  let id ← info.id
  let operation := { operation with producer := producer, id := id }
  let operation := match info.first with
    | some b => { operation with first := b } | none => operation
  let operation := match info.last with
    | some b => { operation with last := b } | none => operation
  some operation

/-- The three optional-scalar-key assignments of `_log_entry_mapping_to_pb`
(`log_name`, `insert_id`, `text_payload`): set exactly when present. -/
def setScalarFields (log_name insert_id text_payload : Option String)
    (entry_pb : LogEntry) : LogEntry :=
  let entry_pb := match log_name with
    | some v => { entry_pb with log_name := v } | none => entry_pb
  let entry_pb := match insert_id with
    | some v => { entry_pb with insert_id := v } | none => entry_pb
  match text_payload with
    | some v => { entry_pb with text_payload := v } | none => entry_pb

/-- The assignment `entry_pb.resource.type = mapping['resource']['type']`,
run only when
`'resource'` is present; fails when the sub-mapping lacks `'type'`. -/
def setResource (resource : Option ResourceMapping) (entry_pb : LogEntry) :
    Option LogEntry :=
  match resource with
  | none => some entry_pb
  | some info =>
      match info.type_ with
      | some t =>
          some { entry_pb with resource := { entry_pb.resource with type_ := t } }
      | none => none

/-- The severity assignment: a string is resolved through
`LogSeverity.Value` (failing on an unrecognized name), a pre-resolved
numeric value is assigned directly. -/
def setSeverity (severity : Option SeverityIn) (entry_pb : LogEntry) :
    Option LogEntry :=
  match severity with
  | none => some entry_pb
  | some (.val n) => some { entry_pb with severity := n }
  | some (.str s) =>
      (LogSeverity.Value s).map (fun v => { entry_pb with severity := v })

/-- The assignment `entry_pb.timestamp.CopyFrom(...)` of the converted
native date/time, run
only when `'timestamp'` is present. -/
def setTimestamp (timestamp : Option DateTime) (entry_pb : LogEntry) :
    LogEntry :=
  match timestamp with
  | none => entry_pb
  | some dt => { entry_pb with timestamp := _datetime_to_pb_timestamp dt }

/-- The key-by-key copy of `mapping['labels']` into `entry_pb.labels`,
run only when `'labels'` is present. -/
def setLabels (labels : Option (List (String × String)))
    (entry_pb : LogEntry) : LogEntry :=
  match labels with
  | none => entry_pb
  | some l => { entry_pb with labels := mapCopy l entry_pb.labels }

/-- The key-by-key copy of `mapping['json_payload']` into
`entry_pb.json_payload`, run only when `'json_payload'` is present. -/
def setJsonPayload (json_payload : Option (List (String × String)))
    (entry_pb : LogEntry) : LogEntry :=
  match json_payload with
  | none => entry_pb
  | some l => { entry_pb with json_payload := mapCopy l entry_pb.json_payload }

/-- The call `Parse(json.dumps(mapping['proto_payload']), ...)`,
run only when `'proto_payload'` is present; fails when the parse fails. -/
def setProtoPayload (proto_payload : Option (List (String × String)))
    (entry_pb : LogEntry) : Option LogEntry :=
  match proto_payload with
  | none => some entry_pb
  | some js => (Parse js).map (fun p => { entry_pb with proto_payload := p })

/-- The call `_http_request_mapping_to_pb(mapping['http_request'], ...)`,
run only
when `'http_request'` is present. -/
def setHttpRequest (http_request : Option HttpRequestMapping)
    (entry_pb : LogEntry) : LogEntry :=
  match http_request with
  | none => entry_pb
  | some info =>
      { entry_pb with
          http_request := _http_request_mapping_to_pb info entry_pb.http_request }

/-- The call `_log_operation_mapping_to_pb(mapping['operation'], ...)`,
run only
when `'operation'` is present; fails when that helper fails. -/
def setOperation (operation : Option OperationMapping)
    (entry_pb : LogEntry) : Option LogEntry :=
  match operation with
  | none => some entry_pb
  | some info =>
      (_log_operation_mapping_to_pb info entry_pb.operation).map
        (fun op => { entry_pb with operation := op })

/-- Embedding of `_log_entry_mapping_to_pb`: starts from a default `LogEntry()` and
runs the field assignments in source order; any raised error (unresolvable
severity name, missing `'type'` / `'producer'` / `'id'`, failed
proto-payload parse) makes the whole conversion fail. -/
def _log_entry_mapping_to_pb (mapping : EntryMapping) : Option LogEntry := do
  let entry_pb : LogEntry := {}
  let entry_pb := setScalarFields mapping.log_name mapping.insert_id
    mapping.text_payload entry_pb
  let entry_pb ← setResource mapping.resource entry_pb
  let entry_pb ← setSeverity mapping.severity entry_pb
  let entry_pb := setTimestamp mapping.timestamp entry_pb
  let entry_pb := setLabels mapping.labels entry_pb
  let entry_pb := setJsonPayload mapping.json_payload entry_pb
  let entry_pb ← setProtoPayload mapping.proto_payload entry_pb
  let entry_pb := setHttpRequest mapping.http_request entry_pb
  setOperation mapping.operation entry_pb

/-- One call to `self._gax_api.write_log_entries(...)` with the arguments
it received; `p_success` is the partial-success flag (named
`partial_success` in the source). -/
structure WriteLogEntriesCall where
  entries : List LogEntry
  logger_name : Option String
  resource : Option ResourceMapping
  labels : Option (List (String × String))
  p_success : Bool
  options : Option CallOptions
  deriving DecidableEq

/-- The list comprehension
`[_log_entry_mapping_to_pb(entry) for entry in entries]`: converts in
order, failing as soon as one conversion raises. -/
def convertEntries : List EntryMapping → Option (List LogEntry)
  | [] => some []
  | entry :: rest => do
      let pb ← _log_entry_mapping_to_pb entry
      let pbs ← convertEntries rest
      some (pb :: pbs)

/-- Embedding of `_LoggingAPI.write_entries`: converts each entry mapping to a message
in order, then issues one batch RPC call with the optional defaults, the
partial-success flag disabled and no options; the result is the list of
calls issued (a conversion failure raises before any call is made). -/
def write_entries (entries : List EntryMapping) (logger_name : Option String)
    (resource : Option ResourceMapping)
    (labels : Option (List (String × String))) :
    Option (List WriteLogEntriesCall) :=
  (convertEntries entries).map
    (fun entry_pbs =>
      [{ entries := entry_pbs, logger_name := logger_name,
         resource := resource, labels := labels,
         p_success := false, options := none }])

/-! ## Theorems -/

/-- C9: `_build_paging_options` with no token yields the first-page
sentinel, which is not the empty token string; with token `"abc"` (or any
token string) it carries that exact string. -/
theorem paging_options_contract :
    _build_paging_options none = { page_token := PageToken.INITIAL_PAGE } ∧
    PageToken.INITIAL_PAGE ≠ PageToken.token "" ∧
    (∀ s : String, _build_paging_options (some s) =
      { page_token := PageToken.token s }) ∧
    _build_paging_options (some "abc") =
      { page_token := PageToken.token "abc" } := by
  refine ⟨rfl, by simp, fun s => rfl, rfl⟩

/-- C5: building the sink message from `name`, `filter`, `destination` and
converting back yields a mapping with exactly those three keys, each bound
to the original value. -/
theorem sink_mapping_roundtrip (name destination filter_ : String) :
    mlookup "name" (_log_sink_pb_to_mapping
      { name := name, filter := filter_, destination := destination }) = some name ∧
    mlookup "destination" (_log_sink_pb_to_mapping
      { name := name, filter := filter_, destination := destination }) = some destination ∧
    mlookup "filter" (_log_sink_pb_to_mapping
      { name := name, filter := filter_, destination := destination }) = some filter_ ∧
    (_log_sink_pb_to_mapping
      { name := name, filter := filter_, destination := destination }).map Prod.fst =
      ["name", "destination", "filter"] := by
  refine ⟨?_, ?_, ?_, rfl⟩ <;> simp [mlookup, _log_sink_pb_to_mapping]

/-- C8: when the update RPC succeeds, `sink_update` returns the mapping
reconstructed from the outgoing request message — the same value whatever
sink message the server sends back. -/
theorem sink_update_returns_request_mapping
    (project sink_name filter_ destination : String) (server : LogSink) :
    sink_update project sink_name filter_ destination (fun _ _ => .ok server) =
      .ok [("name", sink_path project sink_name),
           ("destination", destination),
           ("filter", filter_)] := rfl

/-- C1: `sink_create` builds `projects/<project>/sinks/<sink_name>`; a
transport error with status `FAILED_PRECONDITION` becomes `Conflict` with
exactly that path, and every other error is re-raised unmodified. -/
theorem sink_create_error_mapping
    (project sink_name filter_ destination : String) (g : GaxError)
    (e : String) :
    (g.cause_code = some StatusCode.FAILED_PRECONDITION →
      sink_create project sink_name filter_ destination
          (fun _ _ => .error (.gax g)) =
        .error (.conflict (sink_path project sink_name))) ∧
    (g.cause_code ≠ some StatusCode.FAILED_PRECONDITION →
      sink_create project sink_name filter_ destination
          (fun _ _ => .error (.gax g)) =
        .error (.gax g)) ∧
    sink_create project sink_name filter_ destination
        (fun _ _ => .error (.other e)) =
      .error (.other e) := by
  refine ⟨fun h => ?_, fun h => ?_, rfl⟩ <;>
    simp [sink_create, RpcError.reraise, h]

/-- Instantiation of `sink_create_error_mapping` at `p1`/`s1`: an
already-exists failure yields `Conflict "projects/p1/sinks/s1"`, while an
internal error propagates unchanged. -/
theorem sink_create_error_mapping_witness :
    sink_create "p1" "s1" "f" "d"
        (fun _ _ => .error (.gax ⟨some StatusCode.FAILED_PRECONDITION, "exists"⟩)) =
      .error (.conflict "projects/p1/sinks/s1") ∧
    sink_create "p1" "s1" "f" "d"
        (fun _ _ => .error (.gax ⟨some StatusCode.INTERNAL, "boom"⟩)) =
      .error (.gax ⟨some StatusCode.INTERNAL, "boom"⟩) :=
  ⟨(sink_create_error_mapping "p1" "s1" "f" "d"
      ⟨some StatusCode.FAILED_PRECONDITION, "exists"⟩ "x").1 rfl,
   (sink_create_error_mapping "p1" "s1" "f" "d"
      ⟨some StatusCode.INTERNAL, "boom"⟩ "x").2.1 (by decide)⟩

/-- C2: `sink_get`, `sink_update` and `sink_delete` each build
`projects/<project>/sinks/<sink_name>`; a transport error with status
`NOT_FOUND` becomes `NotFound` with exactly that path, and every other
error is re-raised unmodified. -/
theorem sink_ops_not_found_mapping
    (project sink_name filter_ destination : String) (g : GaxError)
    (e : String) :
    (g.cause_code = some StatusCode.NOT_FOUND →
      sink_get project sink_name (fun _ => .error (.gax g)) =
          .error (.notFound (sink_path project sink_name)) ∧
      sink_update project sink_name filter_ destination
          (fun _ _ => .error (.gax g)) =
        .error (.notFound (sink_path project sink_name)) ∧
      sink_delete project sink_name (fun _ => .error (.gax g)) =
        .error (.notFound (sink_path project sink_name))) ∧
    (g.cause_code ≠ some StatusCode.NOT_FOUND →
      sink_get project sink_name (fun _ => .error (.gax g)) =
          .error (.gax g) ∧
      sink_update project sink_name filter_ destination
          (fun _ _ => .error (.gax g)) =
        .error (.gax g) ∧
      sink_delete project sink_name (fun _ => .error (.gax g)) =
        .error (.gax g)) ∧
    (sink_get project sink_name (fun _ => .error (.other e)) =
        .error (.other e) ∧
      sink_update project sink_name filter_ destination
          (fun _ _ => .error (.other e)) =
        .error (.other e) ∧
      sink_delete project sink_name (fun _ => .error (.other e)) =
        .error (.other e)) := by
  refine ⟨fun h => ⟨?_, ?_, ?_⟩, fun h => ⟨?_, ?_, ?_⟩, rfl, rfl, rfl⟩ <;>
    simp [sink_get, sink_update, sink_delete, RpcError.reraise, h]

/-- Instantiation of `sink_ops_not_found_mapping` at `p1`/`s1`: a
not-found failure yields `NotFound "projects/p1/sinks/s1"` from all three
operations, while a permission failure propagates unchanged. -/
theorem sink_ops_not_found_mapping_witness :
    (sink_get "p1" "s1"
        (fun _ => .error (.gax ⟨some StatusCode.NOT_FOUND, "absent"⟩)) =
      .error (.notFound "projects/p1/sinks/s1")) ∧
    (sink_delete "p1" "s1"
        (fun _ => .error (.gax ⟨some StatusCode.PERMISSION_DENIED, "denied"⟩)) =
      .error (.gax ⟨some StatusCode.PERMISSION_DENIED, "denied"⟩)) :=
  ⟨((sink_ops_not_found_mapping "p1" "s1" "f" "d"
      ⟨some StatusCode.NOT_FOUND, "absent"⟩ "x").1 rfl).1,
   ((sink_ops_not_found_mapping "p1" "s1" "f" "d"
      ⟨some StatusCode.PERMISSION_DENIED, "denied"⟩ "x").2.1 (by decide)).2.2⟩

/-- C3: the mapping built by `_log_entry_pb_to_mapping` always contains
the nine scalar keys, contains `http_request` iff that sub-message is
non-default, and contains `operation` iff that sub-message is
non-default. -/
theorem entry_pb_to_mapping_keys (entry_pb : LogEntry) :
    hasKey "log_name" (_log_entry_pb_to_mapping entry_pb) = true ∧
    hasKey "resource" (_log_entry_pb_to_mapping entry_pb) = true ∧
    hasKey "severity" (_log_entry_pb_to_mapping entry_pb) = true ∧
    hasKey "insert_id" (_log_entry_pb_to_mapping entry_pb) = true ∧
    hasKey "timestamp" (_log_entry_pb_to_mapping entry_pb) = true ∧
    hasKey "labels" (_log_entry_pb_to_mapping entry_pb) = true ∧
    hasKey "text_payload" (_log_entry_pb_to_mapping entry_pb) = true ∧
    hasKey "json_payload" (_log_entry_pb_to_mapping entry_pb) = true ∧
    hasKey "proto_payload" (_log_entry_pb_to_mapping entry_pb) = true ∧
    (hasKey "http_request" (_log_entry_pb_to_mapping entry_pb) = true ↔
      entry_pb.http_request ≠ {}) ∧
    (hasKey "operation" (_log_entry_pb_to_mapping entry_pb) = true ↔
      entry_pb.operation ≠ {}) := by
  by_cases h1 : entry_pb.http_request = ({} : HttpRequest) <;>
    by_cases h2 : entry_pb.operation = ({} : LogEntryOperation) <;>
      simp [_log_entry_pb_to_mapping, hasKey, mlookup, h1, h2]

/-- C10: `_log_entry_pb_to_mapping` binds `severity` to the numeric enum
value, never to a string; a mapping whose severity is the string `"ERROR"`
round-trips (mapping to message to mapping) to the numeric value 500, not
to the original string representation. -/
theorem entry_severity_numeric_no_roundtrip :
    (∀ entry_pb : LogEntry,
      mlookup "severity" (_log_entry_pb_to_mapping entry_pb) =
        some (.num entry_pb.severity)) ∧
    (∀ (entry_pb : LogEntry) (s : String),
      mlookup "severity" (_log_entry_pb_to_mapping entry_pb) ≠
        some (.str s)) ∧
    ((_log_entry_mapping_to_pb { severity := some (.str "ERROR") }).map
        (fun pb => mlookup "severity" (_log_entry_pb_to_mapping pb)) =
      some (some (.num 500))) ∧
    EValue.num 500 ≠ EValue.str "ERROR" := by
  have hsev : ∀ entry_pb : LogEntry,
      mlookup "severity" (_log_entry_pb_to_mapping entry_pb) =
        some (.num entry_pb.severity) := by
    intro entry_pb
    by_cases h1 : entry_pb.http_request = ({} : HttpRequest) <;>
      by_cases h2 : entry_pb.operation = ({} : LogEntryOperation) <;>
        simp [_log_entry_pb_to_mapping, mlookup, h1, h2]
  refine ⟨hsev, fun entry_pb s => ?_, by rfl, by simp⟩
  rw [hsev entry_pb]
  simp

/-- C7: a `severity` given as the string `"ERROR"` is resolved through
`LogSeverity.Value` and yields the same message as the pre-resolved
enumerated value 500; a severity string the enumeration does not recognize
makes the whole conversion fail. -/
theorem severity_string_resolution :
    (∀ m : EntryMapping, m.severity = some (.str "ERROR") →
      _log_entry_mapping_to_pb m =
        _log_entry_mapping_to_pb { m with severity := some (.val 500) }) ∧
    (∀ (m : EntryMapping) (s : String), m.severity = some (.str s) →
      LogSeverity.Value s = none → _log_entry_mapping_to_pb m = none) := by
  constructor
  · intro m h
    simp only [_log_entry_mapping_to_pb, h, setSeverity, LogSeverity.Value]
    rfl
  · intro m s h hv
    simp only [_log_entry_mapping_to_pb, h]
    cases hres : setResource m.resource
        (setScalarFields m.log_name m.insert_id m.text_payload {}) <;>
      simp [hres, setSeverity, hv]

/-- Instantiation of `severity_string_resolution`: `"ERROR"` behaves like
the value 500, and the unrecognized name `"WRONG"` makes the conversion
fail. -/
theorem severity_string_resolution_witness :
    _log_entry_mapping_to_pb { severity := some (.str "ERROR") } =
      _log_entry_mapping_to_pb { severity := some (.val 500) } ∧
    _log_entry_mapping_to_pb { severity := some (.str "WRONG") } = none :=
  ⟨severity_string_resolution.1 { severity := some (.str "ERROR") } rfl,
   severity_string_resolution.2 { severity := some (.str "WRONG") } "WRONG"
     rfl rfl⟩

/-- The in-order conversion of `write_entries` preserves the number of
entries. -/
theorem convertEntries_length :
    ∀ (l : List EntryMapping) (r : List LogEntry),
      convertEntries l = some r → r.length = l.length := by
  intro l
  induction l with
  | nil =>
      intro r h
      simp only [convertEntries, Option.some.injEq] at h
      simp [← h]
  | cons a t ih =>
      intro r h
      simp only [convertEntries] at h
      cases hf : _log_entry_mapping_to_pb a with
      | none => simp [hf] at h
      | some b =>
          cases ht : convertEntries t with
          | none => simp [hf, ht] at h
          | some rt =>
              simp [hf, ht] at h
              subst h
              simp [ih rt ht]

/-- C6: `write_entries` converts each mapping in order and issues exactly
one batch call carrying all converted messages, the optional defaults, the
partial-success flag disabled and no options; three mappings yield one
call with three messages. -/
theorem write_entries_single_batch :
    (∀ (entries : List EntryMapping) (logger_name : Option String)
        (resource : Option ResourceMapping)
        (labels : Option (List (String × String)))
        (entry_pbs : List LogEntry),
      convertEntries entries = some entry_pbs →
      write_entries entries logger_name resource labels =
          some [{ entries := entry_pbs, logger_name := logger_name,
                  resource := resource, labels := labels,
                  p_success := false, options := none }] ∧
        entry_pbs.length = entries.length) ∧
    write_entries [{}, {}, {}] none none none =
      some [{ entries := [{}, {}, {}], logger_name := none,
              resource := none, labels := none,
              p_success := false, options := none }] := by
  refine ⟨fun entries logger_name resource labels entry_pbs h => ⟨?_, ?_⟩, ?_⟩
  · simp [write_entries, h]
  · exact convertEntries_length entries entry_pbs h
  · rfl

/-- Instantiation of `write_entries_single_batch` at a three-element list
of empty entry mappings. -/
theorem write_entries_single_batch_witness :
    write_entries [{}, {}, {}] none none none =
        some [{ entries := [{}, {}, {}], logger_name := none,
                resource := none, labels := none,
                p_success := false, options := none }] ∧
    ([({} : LogEntry), {}, {}]).length = ([({} : EntryMapping), {}, {}]).length :=
  write_entries_single_batch.1 [{}, {}, {}] none none none [{}, {}, {}] rfl

/-- The scalar-key assignments touch no other field of the message. -/
theorem setScalarFields_frame (a b c : Option String) (e : LogEntry) :
    (setScalarFields a b c e).resource = e.resource ∧
    (setScalarFields a b c e).severity = e.severity ∧
    (setScalarFields a b c e).timestamp = e.timestamp ∧
    (setScalarFields a b c e).labels = e.labels ∧
    (setScalarFields a b c e).json_payload = e.json_payload ∧
    (setScalarFields a b c e).proto_payload = e.proto_payload ∧
    (setScalarFields a b c e).http_request = e.http_request ∧
    (setScalarFields a b c e).operation = e.operation := by
  cases a <;> cases b <;> cases c <;>
    exact ⟨rfl, rfl, rfl, rfl, rfl, rfl, rfl, rfl⟩

/-- An absent `log_name` key leaves `log_name` untouched. -/
theorem setScalarFields_log_name_none (b c : Option String) (e : LogEntry) :
    (setScalarFields none b c e).log_name = e.log_name := by
  cases b <;> cases c <;> rfl

/-- An absent `insert_id` key leaves `insert_id` untouched. -/
theorem setScalarFields_insert_id_none (a c : Option String) (e : LogEntry) :
    (setScalarFields a none c e).insert_id = e.insert_id := by
  cases a <;> cases c <;> rfl

/-- An absent `text_payload` key leaves `text_payload` untouched. -/
theorem setScalarFields_text_payload_none (a b : Option String)
    (e : LogEntry) :
    (setScalarFields a b none e).text_payload = e.text_payload := by
  cases a <;> cases b <;> rfl

/-- The `resource` assignment touches no other field of the message. -/
theorem setResource_frame (r : Option ResourceMapping) (e e' : LogEntry)
    (h : setResource r e = some e') :
    e'.log_name = e.log_name ∧ e'.severity = e.severity ∧
    e'.insert_id = e.insert_id ∧ e'.timestamp = e.timestamp ∧
    e'.labels = e.labels ∧ e'.text_payload = e.text_payload ∧
    e'.json_payload = e.json_payload ∧
    e'.proto_payload = e.proto_payload ∧
    e'.http_request = e.http_request ∧ e'.operation = e.operation := by
  cases r with
  | none =>
      simp only [setResource, Option.some.injEq] at h
      subst h
      exact ⟨rfl, rfl, rfl, rfl, rfl, rfl, rfl, rfl, rfl, rfl⟩
  | some info =>
      cases hi : info.type_ with
      | none => simp [setResource, hi] at h
      | some t =>
          simp only [setResource, hi, Option.some.injEq] at h
          subst h
          exact ⟨rfl, rfl, rfl, rfl, rfl, rfl, rfl, rfl, rfl, rfl⟩

/-- The `severity` assignment touches no other field of the message. -/
theorem setSeverity_frame (sv : Option SeverityIn) (e e' : LogEntry)
    (h : setSeverity sv e = some e') :
    e'.log_name = e.log_name ∧ e'.resource = e.resource ∧
    e'.insert_id = e.insert_id ∧ e'.timestamp = e.timestamp ∧
    e'.labels = e.labels ∧ e'.text_payload = e.text_payload ∧
    e'.json_payload = e.json_payload ∧
    e'.proto_payload = e.proto_payload ∧
    e'.http_request = e.http_request ∧ e'.operation = e.operation := by
  cases sv with
  | none =>
      simp only [setSeverity, Option.some.injEq] at h
      subst h
      exact ⟨rfl, rfl, rfl, rfl, rfl, rfl, rfl, rfl, rfl, rfl⟩
  | some si =>
      cases si with
      | val n =>
          simp only [setSeverity, Option.some.injEq] at h
          subst h
          exact ⟨rfl, rfl, rfl, rfl, rfl, rfl, rfl, rfl, rfl, rfl⟩
      | str s =>
          cases hv : LogSeverity.Value s with
          | none => simp [setSeverity, hv] at h
          | some v =>
              simp only [setSeverity, hv, Option.map_some',
                Option.some.injEq] at h
              subst h
              exact ⟨rfl, rfl, rfl, rfl, rfl, rfl, rfl, rfl, rfl, rfl⟩

/-- The `timestamp` assignment touches no other field of the message. -/
theorem setTimestamp_frame (t : Option DateTime) (e : LogEntry) :
    (setTimestamp t e).log_name = e.log_name ∧
    (setTimestamp t e).resource = e.resource ∧
    (setTimestamp t e).severity = e.severity ∧
    (setTimestamp t e).insert_id = e.insert_id ∧
    (setTimestamp t e).labels = e.labels ∧
    (setTimestamp t e).text_payload = e.text_payload ∧
    (setTimestamp t e).json_payload = e.json_payload ∧
    (setTimestamp t e).proto_payload = e.proto_payload ∧
    (setTimestamp t e).http_request = e.http_request ∧
    (setTimestamp t e).operation = e.operation := by
  cases t <;> exact ⟨rfl, rfl, rfl, rfl, rfl, rfl, rfl, rfl, rfl, rfl⟩

/-- The `labels` copy touches no other field of the message. -/
theorem setLabels_frame (l : Option (List (String × String)))
    (e : LogEntry) :
    (setLabels l e).log_name = e.log_name ∧
    (setLabels l e).resource = e.resource ∧
    (setLabels l e).severity = e.severity ∧
    (setLabels l e).insert_id = e.insert_id ∧
    (setLabels l e).timestamp = e.timestamp ∧
    (setLabels l e).text_payload = e.text_payload ∧
    (setLabels l e).json_payload = e.json_payload ∧
    (setLabels l e).proto_payload = e.proto_payload ∧
    (setLabels l e).http_request = e.http_request ∧
    (setLabels l e).operation = e.operation := by
  cases l <;> exact ⟨rfl, rfl, rfl, rfl, rfl, rfl, rfl, rfl, rfl, rfl⟩

/-- The `json_payload` copy touches no other field of the message. -/
theorem setJsonPayload_frame (l : Option (List (String × String)))
    (e : LogEntry) :
    (setJsonPayload l e).log_name = e.log_name ∧
    (setJsonPayload l e).resource = e.resource ∧
    (setJsonPayload l e).severity = e.severity ∧
    (setJsonPayload l e).insert_id = e.insert_id ∧
    (setJsonPayload l e).timestamp = e.timestamp ∧
    (setJsonPayload l e).labels = e.labels ∧
    (setJsonPayload l e).text_payload = e.text_payload ∧
    (setJsonPayload l e).proto_payload = e.proto_payload ∧
    (setJsonPayload l e).http_request = e.http_request ∧
    (setJsonPayload l e).operation = e.operation := by
  cases l <;> exact ⟨rfl, rfl, rfl, rfl, rfl, rfl, rfl, rfl, rfl, rfl⟩

/-- The `proto_payload` parse touches no other field of the message. -/
theorem setProtoPayload_frame (pp : Option (List (String × String)))
    (e e' : LogEntry) (h : setProtoPayload pp e = some e') :
    e'.log_name = e.log_name ∧ e'.resource = e.resource ∧
    e'.severity = e.severity ∧ e'.insert_id = e.insert_id ∧
    e'.timestamp = e.timestamp ∧ e'.labels = e.labels ∧
    e'.text_payload = e.text_payload ∧
    e'.json_payload = e.json_payload ∧
    e'.http_request = e.http_request ∧ e'.operation = e.operation := by
  cases pp with
  | none =>
      simp only [setProtoPayload, Option.some.injEq] at h
      subst h
      exact ⟨rfl, rfl, rfl, rfl, rfl, rfl, rfl, rfl, rfl, rfl⟩
  | some js =>
      cases hp : Parse js with
      | none => simp [setProtoPayload, hp] at h
      | some p =>
          simp only [setProtoPayload, hp, Option.map_some',
            Option.some.injEq] at h
          subst h
          exact ⟨rfl, rfl, rfl, rfl, rfl, rfl, rfl, rfl, rfl, rfl⟩

/-- The `http_request` conversion touches no other field of the message. -/
theorem setHttpRequest_frame (hr : Option HttpRequestMapping)
    (e : LogEntry) :
    (setHttpRequest hr e).log_name = e.log_name ∧
    (setHttpRequest hr e).resource = e.resource ∧
    (setHttpRequest hr e).severity = e.severity ∧
    (setHttpRequest hr e).insert_id = e.insert_id ∧
    (setHttpRequest hr e).timestamp = e.timestamp ∧
    (setHttpRequest hr e).labels = e.labels ∧
    (setHttpRequest hr e).text_payload = e.text_payload ∧
    (setHttpRequest hr e).json_payload = e.json_payload ∧
    (setHttpRequest hr e).proto_payload = e.proto_payload ∧
    (setHttpRequest hr e).operation = e.operation := by
  cases hr <;> exact ⟨rfl, rfl, rfl, rfl, rfl, rfl, rfl, rfl, rfl, rfl⟩

/-- The `operation` conversion touches no other field of the message. -/
theorem setOperation_frame (op : Option OperationMapping) (e e' : LogEntry)
    (h : setOperation op e = some e') :
    e'.log_name = e.log_name ∧ e'.resource = e.resource ∧
    e'.severity = e.severity ∧ e'.insert_id = e.insert_id ∧
    e'.timestamp = e.timestamp ∧ e'.labels = e.labels ∧
    e'.text_payload = e.text_payload ∧
    e'.json_payload = e.json_payload ∧
    e'.proto_payload = e.proto_payload ∧
    e'.http_request = e.http_request := by
  cases op with
  | none =>
      simp only [setOperation, Option.some.injEq] at h
      subst h
      exact ⟨rfl, rfl, rfl, rfl, rfl, rfl, rfl, rfl, rfl, rfl⟩
  | some info =>
      cases ho : _log_operation_mapping_to_pb info e.operation with
      | none => simp [setOperation, ho] at h
      | some o =>
          simp only [setOperation, ho, Option.map_some',
            Option.some.injEq] at h
          subst h
          exact ⟨rfl, rfl, rfl, rfl, rfl, rfl, rfl, rfl, rfl, rfl⟩

/-- A successful conversion factors into its four fallible stages. -/
theorem entry_conversion_decomp (m : EntryMapping) (pb : LogEntry)
    (h : _log_entry_mapping_to_pb m = some pb) :
    ∃ e1 e2 e3,
      setResource m.resource
          (setScalarFields m.log_name m.insert_id m.text_payload {}) =
        some e1 ∧
      setSeverity m.severity e1 = some e2 ∧
      setProtoPayload m.proto_payload
          (setJsonPayload m.json_payload
            (setLabels m.labels (setTimestamp m.timestamp e2))) = some e3 ∧
      setOperation m.operation (setHttpRequest m.http_request e3) =
        some pb := by
  simp only [_log_entry_mapping_to_pb] at h
  cases h1 : setResource m.resource
      (setScalarFields m.log_name m.insert_id m.text_payload {}) with
  | none => simp [h1] at h
  | some e1 =>
    simp only [h1, Option.bind_eq_bind, Option.some_bind] at h
    cases h2 : setSeverity m.severity e1 with
    | none => simp [h2] at h
    | some e2 =>
      simp only [h2, Option.bind_eq_bind, Option.some_bind] at h
      cases h3 : setProtoPayload m.proto_payload
          (setJsonPayload m.json_payload
            (setLabels m.labels (setTimestamp m.timestamp e2))) with
      | none => simp [h3] at h
      | some e3 =>
        simp only [h3, Option.bind_eq_bind, Option.some_bind] at h
        exact ⟨e1, e2, e3, rfl, h2, h3, h⟩

/-- C4: `_log_entry_mapping_to_pb` starts from a default message and sets
a field only when its key is present: every field whose key is absent
keeps its zero/default value; the empty mapping converts to the fully
default `LogEntry`, and `labels={"a":"b"}` yields exactly that map. -/
theorem entry_mapping_to_pb_frame :
    (∀ (m : EntryMapping) (pb : LogEntry),
      _log_entry_mapping_to_pb m = some pb →
      ((m.log_name = none → pb.log_name = "") ∧
       (m.insert_id = none → pb.insert_id = "") ∧
       (m.text_payload = none → pb.text_payload = "") ∧
       (m.resource = none → pb.resource = {}) ∧
       (m.severity = none → pb.severity = 0) ∧
       (m.timestamp = none → pb.timestamp = {}) ∧
       (m.labels = none → pb.labels = []) ∧
       (m.json_payload = none → pb.json_payload = []) ∧
       (m.proto_payload = none → pb.proto_payload = {}) ∧
       (m.http_request = none → pb.http_request = {}) ∧
       (m.operation = none → pb.operation = {}))) ∧
    _log_entry_mapping_to_pb {} = some {} ∧
    (_log_entry_mapping_to_pb { labels := some [("a", "b")] }).map
        LogEntry.labels = some [("a", "b")] := by
  refine ⟨?_, rfl, rfl⟩
  intro m pb h
  obtain ⟨e1, e2, e3, h1, h2, h3, h4⟩ := entry_conversion_decomp m pb h
  obtain ⟨FS_res, FS_sev, FS_ts, FS_lb, FS_js, FS_pp, FS_hr, FS_op⟩ :=
    setScalarFields_frame m.log_name m.insert_id m.text_payload
      ({} : LogEntry)
  obtain ⟨F1_ln, F1_sev, F1_ii, F1_ts, F1_lb, F1_tp, F1_js, F1_pp, F1_hr,
    F1_op⟩ := setResource_frame m.resource _ e1 h1
  obtain ⟨F2_ln, F2_res, F2_ii, F2_ts, F2_lb, F2_tp, F2_js, F2_pp, F2_hr,
    F2_op⟩ := setSeverity_frame m.severity e1 e2 h2
  obtain ⟨FT_ln, FT_res, FT_sev, FT_ii, FT_lb, FT_tp, FT_js, FT_pp, FT_hr,
    FT_op⟩ := setTimestamp_frame m.timestamp e2
  obtain ⟨FL_ln, FL_res, FL_sev, FL_ii, FL_ts, FL_tp, FL_js, FL_pp, FL_hr,
    FL_op⟩ := setLabels_frame m.labels (setTimestamp m.timestamp e2)
  obtain ⟨FJ_ln, FJ_res, FJ_sev, FJ_ii, FJ_ts, FJ_lb, FJ_tp, FJ_pp, FJ_hr,
    FJ_op⟩ := setJsonPayload_frame m.json_payload
      (setLabels m.labels (setTimestamp m.timestamp e2))
  obtain ⟨F3_ln, F3_res, F3_sev, F3_ii, F3_ts, F3_lb, F3_tp, F3_js, F3_hr,
    F3_op⟩ := setProtoPayload_frame m.proto_payload _ e3 h3
  obtain ⟨FH_ln, FH_res, FH_sev, FH_ii, FH_ts, FH_lb, FH_tp, FH_js, FH_pp,
    FH_op⟩ := setHttpRequest_frame m.http_request e3
  obtain ⟨F4_ln, F4_res, F4_sev, F4_ii, F4_ts, F4_lb, F4_tp, F4_js, F4_pp,
    F4_hr⟩ := setOperation_frame m.operation _ pb h4
  refine ⟨fun hm => ?_, fun hm => ?_, fun hm => ?_, fun hm => ?_,
    fun hm => ?_, fun hm => ?_, fun hm => ?_, fun hm => ?_, fun hm => ?_,
    fun hm => ?_, fun hm => ?_⟩
  · rw [F4_ln, FH_ln, F3_ln, FJ_ln, FL_ln, FT_ln, F2_ln, F1_ln, hm,
      setScalarFields_log_name_none]
  · rw [F4_ii, FH_ii, F3_ii, FJ_ii, FL_ii, FT_ii, F2_ii, F1_ii, hm,
      setScalarFields_insert_id_none]
  · rw [F4_tp, FH_tp, F3_tp, FJ_tp, FL_tp, FT_tp, F2_tp, F1_tp, hm,
      setScalarFields_text_payload_none]
  · rw [F4_res, FH_res, F3_res, FJ_res, FL_res, FT_res, F2_res]
    rw [hm] at h1
    simp only [setResource, Option.some.injEq] at h1
    rw [← h1, FS_res]
  · rw [F4_sev, FH_sev, F3_sev, FJ_sev, FL_sev, FT_sev]
    rw [hm] at h2
    simp only [setSeverity, Option.some.injEq] at h2
    rw [← h2, F1_sev, FS_sev]
  · rw [F4_ts, FH_ts, F3_ts, FJ_ts, FL_ts]
    simp only [hm, setTimestamp]
    rw [F2_ts, F1_ts, FS_ts]
  · rw [F4_lb, FH_lb, F3_lb, FJ_lb]
    simp only [hm, setLabels]
    rw [FT_lb, F2_lb, F1_lb, FS_lb]
  · rw [F4_js, FH_js, F3_js]
    simp only [hm, setJsonPayload]
    rw [FL_js, FT_js, F2_js, F1_js, FS_js]
  · rw [F4_pp, FH_pp]
    rw [hm] at h3
    simp only [setProtoPayload, Option.some.injEq] at h3
    rw [← h3, FJ_pp, FL_pp, FT_pp, F2_pp, F1_pp, FS_pp]
  · rw [F4_hr]
    simp only [hm, setHttpRequest]
    rw [F3_hr, FJ_hr, FL_hr, FT_hr, F2_hr, F1_hr, FS_hr]
  · rw [hm] at h4
    simp only [setOperation, Option.some.injEq] at h4
    rw [← h4, FH_op, F3_op, FJ_op, FL_op, FT_op, F2_op, F1_op, FS_op]

/-- Instantiation of `entry_mapping_to_pb_frame` at the empty mapping:
with `labels` and `severity` keys absent, the converted message keeps the
empty label map and zero severity. -/
theorem entry_mapping_to_pb_frame_witness :
    ({} : LogEntry).labels = [] ∧ ({} : LogEntry).severity = 0 :=
  ⟨(entry_mapping_to_pb_frame.1 {} {} rfl).2.2.2.2.2.2.1 rfl,
   (entry_mapping_to_pb_frame.1 {} {} rfl).2.2.2.2.1 rfl⟩

end GaxLogging
